import Mathlib

/-!
Shallow embedding of the NeuroSync agent orchestration core
(`src/agentic_engine.py`) and the session layer (`src/auth.py`),
with theorems settling the specification claims about routing,
rate limiting, the calculator and knowledge tools, conversation
memory, and session-token verification.
-/

namespace NeuroSync

/-- ASCII lowercasing of one character, mirroring Python `str.lower`
on the ASCII range (the trigger substrings compared against are all
ASCII, so only the ASCII behaviour of `lower` is exercised). -/
def lowerChar (c : Char) : Char :=
  if 'A' ≤ c ∧ c ≤ 'Z' then Char.ofNat (c.toNat + 32) else c

/-- `message.lower()` from the source, restricted to ASCII lowercasing. -/
def toLowerStr (s : String) : String := String.mk (s.data.map lowerChar)

/-- Whether `pat` occurs at the start of `s` (character lists). -/
def startsWithList (pat s : List Char) : Bool :=
  match pat, s with
  | [], _ => true
  | _ :: _, [] => false
  | p :: ps, c :: cs => p == c && startsWithList ps cs

/-- Whether `pat` occurs contiguously anywhere in `s` (character lists). -/
def hasSubChars (pat s : List Char) : Bool :=
  match s with
  | [] => pat.isEmpty
  | _ :: cs => startsWithList pat s || hasSubChars pat cs

/-- Python substring containment `pat in s`. -/
def hasSub (s pat : String) : Bool := hasSubChars pat.data s.data

/-- The error classification in `rate_limited_call` and `generate_response`:
`"429" in str(e) or "quota" in str(e).lower() or "rate" in str(e).lower()`. -/
def isRateLimitError (e : String) : Bool :=
  hasSub e "429" || hasSub (toLowerStr e) "quota" || hasSub (toLowerStr e) "rate"

/-- Observable trace of one `rate_limited_call` invocation: how many times the
wrapped function was invoked, which fixed cooldown sleeps (in seconds) were
performed before a retry, and the final outcome (`Except.error` models a
propagated exception carrying `str(e)`). -/
structure CallTrace (α : Type) where
  attempts : Nat
  cooldowns : List Nat
  result : Except String α
deriving Repr

/-- `NeuroSyncAgent.rate_limited_call` (src/agentic_engine.py lines 44-68),
with the wrapped function's behaviour supplied as the outcome of its first
invocation and the outcome of the (at most one) retry invocation. The
initial minimum-interval throttle sleep is real-time behaviour outside the
trace; `cooldowns` records only the fixed 5-second sleep taken before a
retry on a rate-limit/quota error. -/
def rate_limited_call {α : Type} (first retryRes : Except String α) : CallTrace α :=
  match first with
  | Except.ok a => ⟨1, [], Except.ok a⟩
  | Except.error e =>
    if isRateLimitError e then
      match retryRes with
      | Except.ok a => ⟨2, [5], Except.ok a⟩
      | Except.error e2 => ⟨2, [5], Except.error e2⟩
    else ⟨1, [], Except.error e⟩

/-- The roadmap trigger substrings from `generate_response`. -/
def roadmap_triggers : List String :=
  ["roadmap", "learning path", "step by step", "plan", "timeline"]

/-- The code trigger substrings from `generate_response`. -/
def code_triggers : List String :=
  ["code", "program", "function", "algorithm", "script", "python", "javascript", "java"]

/-- `any(trigger in message.lower() for trigger in roadmap_triggers)`. -/
def has_roadmap_trigger (message : String) : Bool :=
  roadmap_triggers.any (fun t => hasSub (toLowerStr message) t)

/-- `any(trigger in message.lower() for trigger in code_triggers)`. -/
def has_code_trigger (message : String) : Bool :=
  code_triggers.any (fun t => hasSub (toLowerStr message) t)

/-- The f-string prompt built by the `generate_roadmap` tool around the raw
query (src/agentic_engine.py lines 99-103). -/
def roadmap_prompt (query : String) : String :=
  "\n            Create a detailed roadmap for: " ++ query ++
  "\n            Format it as a step-by-step guide with clear phases and milestones." ++
  "\n            Include estimated timeframes for each phase if possible.\n            "

/-- The f-string prompt built by the `code_helper` tool around the raw
query (src/agentic_engine.py lines 111-116). -/
def code_prompt (query : String) : String :=
  "\n            Help with this coding request: " ++ query ++
  "\n            Provide clear, concise code examples with explanations." ++
  "\n            If it\x27s a complex problem, break it down into steps." ++
  "\n            Format code examples using triple backticks with the language name.\n            "

/-- Outcomes of the outbound calls, supplied as oracles: `llmFirst p` and
`llmRetry p` are the outcomes of the first and retry invocation of
`self.llm.invoke(p)` (its `.content`), and `agentFirst m` / `agentRetry m`
the outcomes of `self.agent.run(input=m)`. An `Except.error` carries the
raised exception's `str(e)`. -/
structure LLMEnv where
  llmFirst : String → Except String String
  llmRetry : String → Except String String
  agentFirst : String → Except String String
  agentRetry : String → Except String String

/-- Fixed failure string of the `generate_roadmap` tool. -/
def roadmap_fail_msg : String := "I couldn\x27t generate a roadmap due to an error."

/-- Fixed failure string of the `code_helper` tool. -/
def code_fail_msg : String := "I couldn\x27t generate code due to an error."

/-- The `generate_roadmap` tool (src/agentic_engine.py lines 98-107): builds
the prompt around the raw query, submits it through `rate_limited_call`, and
absorbs any exception into the fixed failure string. -/
def generate_roadmap (env : LLMEnv) (query : String) : String :=
  match (rate_limited_call (env.llmFirst (roadmap_prompt query))
          (env.llmRetry (roadmap_prompt query))).result with
  | Except.ok content => content
  | Except.error _ => roadmap_fail_msg

/-- The `code_helper` tool (src/agentic_engine.py lines 110-120): same
pattern as `generate_roadmap` with the code prompt. -/
def code_helper (env : LLMEnv) (query : String) : String :=
  match (rate_limited_call (env.llmFirst (code_prompt query))
          (env.llmRetry (code_prompt query))).result with
  | Except.ok content => content
  | Except.error _ => code_fail_msg

/-- One (role, content) turn of conversation memory. -/
structure Turn where
  role : String
  content : String
deriving DecidableEq, Repr

/-- The window size `k=10` configured in `setup_memory`
(src/agentic_engine.py lines 161-168). -/
def window_k : Nat := 10

/-- Modelled from the spec: the windowed conversation memory itself lives in
the external `ConversationBufferWindowMemory` (langchain), which is not under
src/; only its configuration `k=10` is. Following the spec's ConversationMemory
contract, appending a turn keeps the memory insertion-ordered and prunes to
the last `k` turns, oldest dropped first. -/
def memory_append (k : Nat) (mem : List Turn) (t : Turn) : List Turn :=
  let m := mem ++ [t]
  m.drop (m.length - k)

/-- Which branch of `generate_response` produced the response. -/
inductive RoutePath where
  | roadmap
  | codeHelper
  | general
deriving DecidableEq, Repr

/-- Observable outcome of one `generate_response` call: the returned text,
the conversation memory afterwards, and which branch ran. -/
structure GenResult where
  text : String
  memory : List Turn
  path : RoutePath
deriving DecidableEq, Repr

/-- The fixed message returned when the general path's exception is
classified as a quota/rate-limit condition. -/
def quota_unavailable_msg : String := "I\x27m currently facing issue"

/-- The fixed message returned for any other exception on the general path. -/
def generic_failure_msg : String := "I am currently facing issue"

/-- `NeuroSyncAgent.generate_response` (src/agentic_engine.py lines 182-204).
The roadmap and code trigger branches call the corresponding tool directly on
the raw message and return without touching the conversation memory (the
source performs no memory operation on those branches). The general branch
submits the message through `rate_limited_call(self.agent.run, ...)`; on
success the agent commits the (user, assistant) turn pair to the windowed
memory (modelled from the spec, see `memory_append`; the external agent does
not commit the turn when it raises), and on a propagated exception the
response is one of the two fixed failure strings, classified by
`isRateLimitError`, with the memory left unchanged. -/
def generate_response (env : LLMEnv) (mem : List Turn) (message : String) : GenResult :=
  if has_roadmap_trigger message then
    ⟨generate_roadmap env message, mem, RoutePath.roadmap⟩
  else if has_code_trigger message then
    ⟨code_helper env message, mem, RoutePath.codeHelper⟩
  else
    match (rate_limited_call (env.agentFirst message) (env.agentRetry message)).result with
    | Except.ok resp =>
      ⟨resp,
       memory_append window_k (memory_append window_k mem ⟨"user", message⟩) ⟨"assistant", resp⟩,
       RoutePath.general⟩
    | Except.error e =>
      ⟨if isRateLimitError e then quota_unavailable_msg else generic_failure_msg,
       mem, RoutePath.general⟩

/-- The character whitelist of the calculator tool:
`'0123456789+-*/(). '` (src/agentic_engine.py line 82). -/
def allowed_chars : List Char := "0123456789+-*/(). ".data

/-- The sanitizer of the calculator tool: keep exactly the whitelisted
characters, in order. -/
def sanitize (q : String) : String :=
  String.mk (q.data.filter (fun c => allowed_chars.contains c))

/-- A numeric value of the evaluator: an exact fraction `num / den`
(`den` is kept positive by all operations) tagged with its kind, mirroring
the host language's int/float distinction: integer literals and integer
`+`, `-`, `*` stay ints, while decimal literals and every division are
floats. -/
structure PyNum where
  num : Int
  den : Nat
  isFloat : Bool
deriving DecidableEq, Repr

/-- An integer literal. -/
def pyInt (n : Nat) : PyNum := ⟨(n : Int), 1, false⟩

/-- A decimal literal with integer part `intpart` and `k` fraction digits
forming `frac`. -/
def pyFloatLit (intpart frac k : Nat) : PyNum :=
  ⟨((intpart * 10 ^ k + frac : Nat) : Int), 10 ^ k, true⟩

/-- Addition with the host's kind coercion: float if either side is. -/
def pyAdd (a b : PyNum) : PyNum :=
  ⟨a.num * (b.den : Int) + b.num * (a.den : Int), a.den * b.den, a.isFloat || b.isFloat⟩

/-- Subtraction with the host's kind coercion. -/
def pySub (a b : PyNum) : PyNum :=
  ⟨a.num * (b.den : Int) - b.num * (a.den : Int), a.den * b.den, a.isFloat || b.isFloat⟩

/-- Multiplication with the host's kind coercion. -/
def pyMul (a b : PyNum) : PyNum :=
  ⟨a.num * b.num, a.den * b.den, a.isFloat || b.isFloat⟩

/-- True division: always a float; the caller rejects a zero divisor first
(division by zero is an evaluation failure). -/
def pyDiv (a b : PyNum) : PyNum :=
  ⟨a.num * (b.den : Int) * (if b.num < 0 then -1 else 1), a.den * b.num.natAbs, true⟩

/-- Unary minus, keeping the operand's kind. -/
def pyNeg (a : PyNum) : PyNum := ⟨-a.num, a.den, a.isFloat⟩

/-- Tokens of the arithmetic evaluator. -/
inductive Tok where
  | num (v : PyNum)
  | plus
  | minus
  | star
  | slash
  | lparen
  | rparen
deriving DecidableEq, Repr

/-- Consume a run of decimal digits, extending `acc`. -/
def lexNum (acc : Nat) : List Char → Nat × List Char
  | [] => (acc, [])
  | c :: cs => if c.isDigit then lexNum (acc * 10 + (c.toNat - 48)) cs else (acc, c :: cs)

/-- Consume a run of fraction digits after a decimal point, returning their
value, their count and the rest. -/
def lexFrac (acc k : Nat) : List Char → Nat × Nat × List Char
  | [] => (acc, k, [])
  | c :: cs =>
    if c.isDigit then lexFrac (acc * 10 + (c.toNat - 48)) (k + 1) cs else (acc, k, c :: cs)

/-- Fuelled tokenizer: spaces are skipped, digit runs become integer
literals, digit runs around a decimal point (including the `2.` and `.5`
forms) become float literals, the operator characters become their tokens,
and anything else — including a decimal point with no adjacent digit — is a
lexical error (`none`). -/
def lexTokens : Nat → List Char → Option (List Tok)
  | _, [] => some []
  | 0, _ :: _ => none
  | fuel + 1, c :: cs =>
    if c == ' ' then lexTokens fuel cs
    else if c.isDigit then
      let r := lexNum (c.toNat - 48) cs
      match r.2 with
      | '.' :: cs2 =>
        let f := lexFrac 0 0 cs2
        (lexTokens fuel f.2.2).map (fun ts => Tok.num (pyFloatLit r.1 f.1 f.2.1) :: ts)
      | _ => (lexTokens fuel r.2).map (fun ts => Tok.num (pyInt r.1) :: ts)
    else if c == '.' then
      let f := lexFrac 0 0 cs
      if f.2.1 == 0 then none
      else (lexTokens fuel f.2.2).map (fun ts => Tok.num (pyFloatLit 0 f.1 f.2.1) :: ts)
    else if c == '+' then (lexTokens fuel cs).map (fun ts => Tok.plus :: ts)
    else if c == '-' then (lexTokens fuel cs).map (fun ts => Tok.minus :: ts)
    else if c == '*' then (lexTokens fuel cs).map (fun ts => Tok.star :: ts)
    else if c == '/' then (lexTokens fuel cs).map (fun ts => Tok.slash :: ts)
    else if c == '(' then (lexTokens fuel cs).map (fun ts => Tok.lparen :: ts)
    else if c == ')' then (lexTokens fuel cs).map (fun ts => Tok.rparen :: ts)
    else none

mutual

/-- Additive level of the recursive-descent evaluator. -/
def parseExpr : Nat → List Tok → Option (PyNum × List Tok)
  | 0, _ => none
  | fuel + 1, ts =>
    match parseTerm fuel ts with
    | none => none
    | some (v, rest) => parseExprOps fuel v rest

/-- Left-associated chain of `+`/`-` after a first term. -/
def parseExprOps : Nat → PyNum → List Tok → Option (PyNum × List Tok)
  | 0, _, _ => none
  | fuel + 1, acc, Tok.plus :: ts =>
    match parseTerm fuel ts with
    | none => none
    | some (v, rest) => parseExprOps fuel (pyAdd acc v) rest
  | fuel + 1, acc, Tok.minus :: ts =>
    match parseTerm fuel ts with
    | none => none
    | some (v, rest) => parseExprOps fuel (pySub acc v) rest
  | _ + 1, acc, ts => some (acc, ts)

/-- Multiplicative level of the recursive-descent evaluator. -/
def parseTerm : Nat → List Tok → Option (PyNum × List Tok)
  | 0, _ => none
  | fuel + 1, ts =>
    match parseFactor fuel ts with
    | none => none
    | some (v, rest) => parseTermOps fuel v rest

/-- Left-associated chain of `*`/`/` after a first factor; a zero divisor is
an evaluation failure. -/
def parseTermOps : Nat → PyNum → List Tok → Option (PyNum × List Tok)
  | 0, _, _ => none
  | fuel + 1, acc, Tok.star :: ts =>
    match parseFactor fuel ts with
    | none => none
    | some (v, rest) => parseTermOps fuel (pyMul acc v) rest
  | fuel + 1, acc, Tok.slash :: ts =>
    match parseFactor fuel ts with
    | none => none
    | some (v, rest) =>
      if v.num == 0 then none else parseTermOps fuel (pyDiv acc v) rest
  | _ + 1, acc, ts => some (acc, ts)

/-- Unary signs, numeric literals and parenthesised expressions. -/
def parseFactor : Nat → List Tok → Option (PyNum × List Tok)
  | 0, _ => none
  | fuel + 1, Tok.plus :: ts => parseFactor fuel ts
  | fuel + 1, Tok.minus :: ts =>
    match parseFactor fuel ts with
    | none => none
    | some (v, rest) => some (pyNeg v, rest)
  | _ + 1, Tok.num v :: ts => some (v, ts)
  | fuel + 1, Tok.lparen :: ts =>
    match parseExpr fuel ts with
    | none => none
    | some (v, rest) =>
      match rest with
      | Tok.rparen :: ts2 => some (v, ts2)
      | _ => none
  | _ + 1, _ => none

end

/-- Modelled from the spec: the source line `eval(cleaned_query)` invokes the
external Python evaluator, which is not under src/; the spec's design note
directs implementers to a tokenizer plus recursive-descent arithmetic
evaluator supporting `+ - * / ( )` and decimal literals, with explicit error
on malformed input, which is what this is. Integer arithmetic stays exact
ints; decimal literals and true division produce floats (division by zero an
evaluation failure); unary signs and parentheses follow the host grammar.
Operator spellings outside the spec's set that survive the character filter
(the host's floor-division `//` and power `**`) are malformed for the model. -/
def pyEval (s : String) : Option PyNum :=
  match lexTokens s.data.length s.data with
  | none => none
  | some ts =>
    match parseExpr (ts.length * 2 + 2) ts with
    | some (v, []) => some v
    | _ => none

/-- Left-pad a digit string with zeros to `k` characters. -/
def padZeros (s : String) (k : Nat) : String :=
  String.mk (List.replicate (k - s.length) '0') ++ s

/-- Drop leading zeros of a reversed digit list, keeping at least one digit. -/
def dropTrailZeroRev : List Char → List Char
  | [] => []
  | c :: rest => if c == '0' && !rest.isEmpty then dropTrailZeroRev rest else c :: rest

/-- Strip trailing zeros from a fraction-digit string, keeping at least one
digit. -/
def stripFracZeros (s : String) : String :=
  String.mk (dropTrailZeroRev s.data.reverse).reverse

/-- The number of fraction digits carried by the float rendering. -/
def float_digits : Nat := 17

/-- Render a value the way the host's `str` does: an int as its decimal
digits, a float as its sign, integer part, and fraction digits with trailing
zeros stripped but at least one digit kept (so `2.0`, `5.0`, `1.5`). The
rendering is exact for every value whose fraction terminates within
`float_digits` decimal digits and truncates beyond that; the host runtime's
IEEE binary rounding of non-terminating fractions is outside the model. -/
def pyValToString (v : PyNum) : String :=
  if v.isFloat then
    let scaled := v.num.natAbs * 10 ^ float_digits / v.den
    (if v.num < 0 then "-" else "") ++ toString (scaled / 10 ^ float_digits) ++ "." ++
      stripFracZeros (padZeros (toString (scaled % 10 ^ float_digits)) float_digits)
  else toString v.num

/-- Fixed failure string of the calculator tool. -/
def calc_fail_msg : String :=
  "I couldn\x27t calculate that expression. Please provide a valid mathematical expression."

/-- The `calculator` tool (src/agentic_engine.py lines 79-85): sanitize, then
evaluate; any evaluation failure is absorbed into the fixed failure string. -/
def calculator (q : String) : String :=
  match pyEval (sanitize q) with
  | some v => pyValToString v
  | none => calc_fail_msg

/-- The fixed reply of `knowledge_search` on an empty knowledge base. -/
def no_knowledge_msg : String := "No knowledge available yet."

/-- Python slice `l[-n:]`: the last `n` elements (all of them when fewer). -/
def takeLast {α : Type} (n : Nat) (l : List α) : List α := l.drop (l.length - n)

/-- `f"{i+1}. {kb}"` numbering over an enumerated fact list. -/
def numbered_facts (facts : List String) : List String :=
  facts.enum.map (fun p => toString (p.1 + 1) ++ ". " ++ p.2)

/-- The `knowledge_search` tool (src/agentic_engine.py lines 88-91): on a
non-empty knowledge base, join the numbered last five facts with newlines,
ignoring the query; otherwise the fixed no-knowledge reply. -/
def knowledge_search (kb : List String) (query : String) : String :=
  if kb.isEmpty then no_knowledge_msg
  else String.intercalate "\n" (numbered_facts (takeLast 5 kb))

/-- The `add_to_knowledge` tool (src/agentic_engine.py lines 93-95): append
the fact and return the confirmation string embedding it. -/
def add_to_knowledge (kb : List String) (fact : String) : List String × String :=
  (kb ++ [fact], "Added to knowledge base: " ++ fact)

/-- One row of the `user_sessions` table (src/auth.py), with timestamps as
seconds. -/
structure SessionRow where
  user_id : Nat
  session_token : String
  expires_at : Nat
deriving DecidableEq, Repr

/-- Seven days in seconds, the validity window of `create_session_token`
(`datetime.now() + timedelta(days=7)`, src/auth.py line 117). -/
def session_valid_seconds : Nat := 7 * 24 * 60 * 60

/-- `create_session_token` (src/auth.py lines 110-126): insert a row for the
freshly generated token with `expires_at` seven days from now. Token
generation itself draws on external entropy, so the token value is a
parameter. The table is modelled as the insertion-ordered list of rows. -/
def create_session_token (store : List SessionRow) (now uid : Nat) (token : String) :
    List SessionRow :=
  store ++ [⟨uid, token, now + session_valid_seconds⟩]

/-- The WHERE clause of `verify_session_token`:
`session_token = ? AND expires_at > CURRENT_TIMESTAMP`. -/
def session_matches (now : Nat) (token : String) (r : SessionRow) : Bool :=
  r.session_token == token && decide (now < r.expires_at)

/-- `verify_session_token` (src/auth.py lines 127-141): the first stored row
matching the token with a strictly future expiry yields its user id;
otherwise no user. -/
def verify_session_token (store : List SessionRow) (now : Nat) (token : String) :
    Option Nat :=
  (store.find? (session_matches now token)).map SessionRow.user_id

/-- A concrete oracle for witnesses: every outbound call succeeds with "ok". -/
def env0 : LLMEnv :=
  ⟨fun _ => Except.ok "ok", fun _ => Except.ok "ok",
   fun _ => Except.ok "ok", fun _ => Except.ok "ok"⟩

/-- A concrete ten-turn conversation memory. -/
def mem10ex : List Turn := (List.range 10).map (fun i => ⟨"user", toString i⟩)

/-- A concrete session store: one live token and one expired token. -/
def store0 : List SessionRow := [⟨1, "tokA", 100⟩, ⟨2, "tokB", 5⟩]

/-- C1: a message whose lowercase form contains a roadmap trigger substring is
routed by `generate_response` straight to the roadmap tool applied to the raw
message, whose result is returned with the memory untouched; the general
delegation path is never taken, and the uppercase and lowercase spellings of
"roadmap please" take the same path. -/
theorem roadmap_trigger_routes_directly
    (env : LLMEnv) (mem : List Turn) (message : String)
    (h : ∃ t ∈ roadmap_triggers, hasSub (toLowerStr message) t = true) :
    generate_response env mem message =
      ⟨generate_roadmap env message, mem, RoutePath.roadmap⟩ ∧
    (generate_response env mem message).path ≠ RoutePath.general ∧
    (generate_response env mem "ROADMAP please").path =
      (generate_response env mem "roadmap please").path := by
  have htrig : has_roadmap_trigger message = true := by
    unfold has_roadmap_trigger
    exact List.any_eq_true.mpr h
  refine ⟨?_, ?_, ?_⟩
  · unfold generate_response
    rw [if_pos htrig]
  · unfold generate_response
    rw [if_pos htrig]
    simp
  · have h1 : has_roadmap_trigger "ROADMAP please" = true := by decide
    have h2 : has_roadmap_trigger "roadmap please" = true := by decide
    unfold generate_response
    rw [if_pos h1, if_pos h2]

/-- Witness for C1 at the concrete message "roadmap please". -/
theorem roadmap_trigger_routes_directly_witness :
    generate_response env0 [] "roadmap please" =
      ⟨generate_roadmap env0 "roadmap please", [], RoutePath.roadmap⟩ :=
  (roadmap_trigger_routes_directly env0 [] "roadmap please"
    ⟨"roadmap", by decide, by decide⟩).1

/-- C2: a message whose lowercase form contains a code trigger substring and
no roadmap trigger substring is routed by `generate_response` straight to the
code helper tool applied to the raw message, whose result is returned with the
memory untouched; neither the roadmap tool nor the general delegation path is
invoked. -/
theorem code_trigger_routes_directly
    (env : LLMEnv) (mem : List Turn) (message : String)
    (hc : ∃ t ∈ code_triggers, hasSub (toLowerStr message) t = true)
    (hr : ∀ t ∈ roadmap_triggers, hasSub (toLowerStr message) t = false) :
    generate_response env mem message =
      ⟨code_helper env message, mem, RoutePath.codeHelper⟩ ∧
    (generate_response env mem message).path ≠ RoutePath.general ∧
    (generate_response env mem message).path ≠ RoutePath.roadmap := by
  have htrigC : has_code_trigger message = true := by
    unfold has_code_trigger
    exact List.any_eq_true.mpr hc
  have htrigR : has_roadmap_trigger message = false := by
    unfold has_roadmap_trigger
    rw [List.any_eq_false]
    intro t ht
    simp [hr t ht]
  refine ⟨?_, ?_, ?_⟩
  · unfold generate_response
    rw [if_neg (by simp [htrigR]), if_pos htrigC]
  · unfold generate_response
    rw [if_neg (by simp [htrigR]), if_pos htrigC]
    simp
  · unfold generate_response
    rw [if_neg (by simp [htrigR]), if_pos htrigC]
    simp

/-- Witness for C2 at the concrete message "write me some code". -/
theorem code_trigger_routes_directly_witness :
    generate_response env0 [] "write me some code" =
      ⟨code_helper env0 "write me some code", [], RoutePath.codeHelper⟩ :=
  (code_trigger_routes_directly env0 [] "write me some code"
    ⟨"code", by decide, by decide⟩ (by decide)).1

/-- C3 counterexample: on the roadmap trigger path the conversation memory is
not appended with the new turn — processing "roadmap please" from an empty
memory leaves the memory empty, which differs from the appended-and-pruned
memory the claim requires on every path. -/
theorem generate_response_roadmap_skips_memory_cex :
    (generate_response env0 [] "roadmap please").memory = [] ∧
    memory_append window_k (memory_append window_k [] ⟨"user", "roadmap please"⟩)
        ⟨"assistant", (generate_response env0 [] "roadmap please").text⟩ ≠
      (generate_response env0 [] "roadmap please").memory := by
  constructor
  · decide
  · decide

/-- C3 amended: only the successful general delegation path appends the new
(user, assistant) turn pair to the conversation memory and prunes it to the
last `window_k` turns, oldest first; the roadmap trigger path, the code
trigger path, and the error path all leave the memory unchanged. -/
theorem generate_response_memory_update
    (env : LLMEnv) (mem : List Turn) (message : String) :
    (has_roadmap_trigger message = true →
      (generate_response env mem message).memory = mem) ∧
    (has_roadmap_trigger message = false → has_code_trigger message = true →
      (generate_response env mem message).memory = mem) ∧
    (∀ e, has_roadmap_trigger message = false → has_code_trigger message = false →
      (rate_limited_call (env.agentFirst message) (env.agentRetry message)).result
        = Except.error e →
      (generate_response env mem message).memory = mem) ∧
    (∀ resp, has_roadmap_trigger message = false → has_code_trigger message = false →
      (rate_limited_call (env.agentFirst message) (env.agentRetry message)).result
        = Except.ok resp →
      (generate_response env mem message).memory =
        memory_append window_k (memory_append window_k mem ⟨"user", message⟩)
          ⟨"assistant", resp⟩) := by
  refine ⟨?_, ?_, ?_, ?_⟩
  · intro h1
    simp [generate_response, h1]
  · intro h1 h2
    simp [generate_response, h1, h2]
  · intro e h1 h2 hres
    simp [generate_response, h1, h2, hres]
  · intro resp h1 h2 hres
    simp [generate_response, h1, h2, hres]

/-- Witness for the amended C3 on the successful general path at "hello". -/
theorem generate_response_memory_update_witness :
    (generate_response env0 [] "hello").memory =
      memory_append window_k (memory_append window_k [] ⟨"user", "hello"⟩)
        ⟨"assistant", "ok"⟩ :=
  (generate_response_memory_update env0 [] "hello").2.2.2 "ok" (by decide) (by decide) rfl

/-- C4: `rate_limited_call` on a first-attempt error whose text matches the
rate-limit classification sleeps the fixed 5-second cooldown, retries exactly
once, and propagates the retry's outcome (including the retry's error, not
the first error); a non-matching error propagates immediately with a single
attempt and no cooldown. -/
theorem rate_limited_call_policy {α : Type} (first retryRes : Except String α) (e : String) :
    (first = Except.error e → isRateLimitError e = true →
      rate_limited_call first retryRes = ⟨2, [5], retryRes⟩) ∧
    (first = Except.error e → isRateLimitError e = false →
      rate_limited_call first retryRes = ⟨1, [], Except.error e⟩) := by
  constructor
  · intro hf hrate
    subst hf
    cases retryRes <;> simp [rate_limited_call, hrate]
  · intro hf hrate
    subst hf
    simp [rate_limited_call, hrate]

/-- Witness for C4: a 429 first failure is retried once after the 5-second
cooldown and the retry's own error propagates; a non-matching first failure
propagates immediately without a retry. -/
theorem rate_limited_call_policy_witness :
    rate_limited_call (Except.error "429 resource exhausted")
        (Except.error "second failure") =
      ⟨2, [5], (Except.error "second failure" : Except String String)⟩ ∧
    rate_limited_call (Except.error "boom")
        (Except.ok "unused") =
      ⟨1, [], (Except.error "boom" : Except String String)⟩ :=
  ⟨(rate_limited_call_policy (Except.error "429 resource exhausted")
      (Except.error "second failure") "429 resource exhausted").1 rfl (by decide),
   (rate_limited_call_policy (Except.error "boom")
      (Except.ok "unused") "boom").2 rfl (by decide)⟩

/-- C5: the windowed conversation memory never retains more than `window_k`
(= 10) turns; appending a turn to a full memory evicts exactly the oldest
turn; and the retained turns are a suffix of the appended sequence, so
insertion order is preserved. -/
theorem conversation_memory_window (mem : List Turn) (t : Turn) :
    (memory_append window_k mem t).length ≤ window_k ∧
    (mem.length = window_k → memory_append window_k mem t = mem.tail ++ [t]) ∧
    List.IsSuffix (memory_append window_k mem t) (mem ++ [t]) := by
  refine ⟨?_, ?_, ?_⟩
  · simp only [memory_append, List.length_drop, List.length_append]
    omega
  · intro h
    cases mem with
    | nil => simp [window_k] at h
    | cons a as =>
      simp only [memory_append, List.length_append, h]
      simp [window_k]
  · exact List.drop_suffix _ _

/-- Witness for C5: appending an eleventh turn to a concrete full memory
evicts exactly the oldest turn. -/
theorem conversation_memory_window_witness :
    memory_append window_k mem10ex ⟨"assistant", "new"⟩ =
      mem10ex.tail ++ [⟨"assistant", "new"⟩] :=
  (conversation_memory_window mem10ex ⟨"assistant", "new"⟩).2.1 (by decide)

/-- C6: the calculator keeps exactly the whitelisted characters of its input
in order, then evaluates the rest: "2+2" yields "4", the malformed "2+"
yields the fixed failure string, "DROP TABLE;1+1" is sanitized to " 1+1" and
evaluated to "2", division and decimal literals evaluate as floats ("4/2" to
"2.0", "10/2" to "5.0", "1.5" to "1.5") with division by zero an absorbed
failure, and on every input the result is either the rendering of an
evaluated value or the fixed failure string — no exception escapes. -/
theorem calculator_sanitizes_and_absorbs_failures :
    (∀ q : String, (sanitize q).data = q.data.filter (fun c => allowed_chars.contains c)) ∧
    (∀ q : String, (sanitize q).data.all (fun c => allowed_chars.contains c) = true) ∧
    calculator "2+2" = "4" ∧
    calculator "2+" = calc_fail_msg ∧
    sanitize "DROP TABLE;1+1" = " 1+1" ∧
    calculator "DROP TABLE;1+1" = "2" ∧
    calculator "4/2" = "2.0" ∧
    calculator "10/2" = "5.0" ∧
    calculator "1.5" = "1.5" ∧
    calculator "1/0" = calc_fail_msg ∧
    (∀ q : String, calculator q = calc_fail_msg ∨
      ∃ v : PyNum, pyEval (sanitize q) = some v ∧ calculator q = pyValToString v) := by
  refine ⟨fun q => rfl, ?_, by decide, by decide, by decide, by decide, by decide,
    by decide, by decide, by decide, ?_⟩
  · intro q
    rw [List.all_eq_true]
    intro c hc
    exact (List.mem_filter.mp hc).2
  · intro q
    cases h : pyEval (sanitize q) with
    | none =>
      left
      simp [calculator, h]
    | some v =>
      right
      exact ⟨v, rfl, by simp [calculator, h]⟩

/-- C7: the two fixed failure messages of `generate_response` are
distinguishable, and for every oracle, memory and message the returned text
is one of: a tool result, the agent's successful answer, the fixed
quota-unavailable message (when the propagated error is classified as
rate-limit/quota), or the fixed generic failure message (any other error) —
the outbound error surface is fully absorbed into returned strings. -/
theorem generate_response_total_error_surface
    (env : LLMEnv) (mem : List Turn) (message : String) :
    quota_unavailable_msg ≠ generic_failure_msg ∧
    ((generate_response env mem message).text = generate_roadmap env message ∨
     (generate_response env mem message).text = code_helper env message ∨
     (∃ resp, (rate_limited_call (env.agentFirst message) (env.agentRetry message)).result
        = Except.ok resp ∧ (generate_response env mem message).text = resp) ∨
     (∃ e, (rate_limited_call (env.agentFirst message) (env.agentRetry message)).result
        = Except.error e ∧ isRateLimitError e = true ∧
        (generate_response env mem message).text = quota_unavailable_msg) ∨
     (∃ e, (rate_limited_call (env.agentFirst message) (env.agentRetry message)).result
        = Except.error e ∧ isRateLimitError e = false ∧
        (generate_response env mem message).text = generic_failure_msg)) := by
  constructor
  · decide
  · by_cases h1 : has_roadmap_trigger message = true
    · left
      simp [generate_response, h1]
    · rw [Bool.not_eq_true] at h1
      by_cases h2 : has_code_trigger message = true
      · right; left
        simp [generate_response, h1, h2]
      · rw [Bool.not_eq_true] at h2
        cases hres : (rate_limited_call (env.agentFirst message)
            (env.agentRetry message)).result with
        | ok resp =>
          right; right; left
          exact ⟨resp, rfl, by simp [generate_response, h1, h2, hres]⟩
        | error e =>
          by_cases hr : isRateLimitError e = true
          · right; right; right; left
            exact ⟨e, rfl, hr, by simp [generate_response, h1, h2, hres, hr]⟩
          · rw [Bool.not_eq_true] at hr
            right; right; right; right
            exact ⟨e, rfl, hr, by simp [generate_response, h1, h2, hres, hr]⟩

/-- C8: on a non-empty knowledge base `knowledge_search` ignores the query —
any two queries get the identical reply — and returns the newline-joined,
1-based-numbered listing of the last five facts in insertion order; after
adding F1..F7 in order the reply lists F3..F7 numbered 1 through 5. -/
theorem knowledge_search_last_five (kb : List String) (q q2 : String)
    (h : kb.isEmpty = false) :
    knowledge_search kb q = knowledge_search kb q2 ∧
    knowledge_search kb q = String.intercalate "\n" (numbered_facts (takeLast 5 kb)) ∧
    knowledge_search
        (List.foldl (fun acc f => (add_to_knowledge acc f).1) []
          ["F1", "F2", "F3", "F4", "F5", "F6", "F7"]) q =
      "1. F3\n2. F4\n3. F5\n4. F6\n5. F7" := by
  refine ⟨?_, ?_, ?_⟩
  · simp [knowledge_search, h]
  · simp [knowledge_search, h]
  · rfl

/-- Witness for C8 at a concrete two-fact knowledge base and two queries. -/
theorem knowledge_search_last_five_witness :
    knowledge_search ["a", "b"] "x" = knowledge_search ["a", "b"] "y" :=
  (knowledge_search_last_five ["a", "b"] "x" "y" rfl).1

/-- C9: with unique session tokens, `verify_session_token` returns a user id
exactly when a stored row carries the token with a strictly future expiry —
and then it is that row's user id; it returns no user exactly when every row
carrying the token has already expired (or no row matches); and
`create_session_token` stores the new token with expiry seven days from
issuance. -/
theorem verify_session_token_spec (store : List SessionRow) (now : Nat) (tok : String)
    (huniq : ∀ r1 ∈ store, ∀ r2 ∈ store, r1.session_token = r2.session_token → r1 = r2) :
    (∀ u : Nat, verify_session_token store now tok = some u ↔
      ∃ r ∈ store, r.session_token = tok ∧ now < r.expires_at ∧ r.user_id = u) ∧
    (verify_session_token store now tok = none ↔
      ∀ r ∈ store, r.session_token = tok → r.expires_at ≤ now) ∧
    (∀ uid t0, (create_session_token store t0 uid tok).getLast? =
      some ⟨uid, tok, t0 + session_valid_seconds⟩) := by
  refine ⟨?_, ?_, ?_⟩
  · intro u
    constructor
    · intro h
      unfold verify_session_token at h
      cases hf : store.find? (session_matches now tok) with
      | none => rw [hf] at h; simp at h
      | some r =>
        rw [hf] at h
        simp at h
        have hmem := List.mem_of_find?_eq_some hf
        have hp := List.find?_some hf
        simp [session_matches] at hp
        exact ⟨r, hmem, hp.1, hp.2, h⟩
    · rintro ⟨r, hmem, htok, hexp, huid⟩
      have hsome : (store.find? (session_matches now tok)).isSome := by
        rw [List.find?_isSome]
        exact ⟨r, hmem, by simp [session_matches, htok, hexp]⟩
      cases hf : store.find? (session_matches now tok) with
      | none => rw [hf] at hsome; simp at hsome
      | some r2 =>
        have hmem2 := List.mem_of_find?_eq_some hf
        have hp2 := List.find?_some hf
        simp [session_matches] at hp2
        have hr2 : r2 = r := huniq r2 hmem2 r hmem (by rw [hp2.1, htok])
        unfold verify_session_token
        rw [hf, hr2]
        simp [huid]
  · constructor
    · intro h r hmem htok
      unfold verify_session_token at h
      rw [Option.map_eq_none', List.find?_eq_none] at h
      have hr := h r hmem
      simp [session_matches, htok] at hr
      omega
    · intro h
      unfold verify_session_token
      rw [Option.map_eq_none', List.find?_eq_none]
      intro r hmem
      simp [session_matches]
      intro htok
      exact h r hmem htok
  · intro uid t0
    simp [create_session_token]

/-- Witness for C9: in a concrete store the live token verifies to its user
id while the expired token yields no user. -/
theorem verify_session_token_spec_witness :
    verify_session_token store0 50 "tokA" = some 1 :=
  ((verify_session_token_spec store0 50 "tokA" (by decide)).1 1).mpr
    ⟨⟨1, "tokA", 100⟩, by decide, rfl, by decide, rfl⟩

/-- C10: on an empty knowledge base `knowledge_search` returns the fixed
non-empty string "No knowledge available yet." for every query. -/
theorem knowledge_search_empty_fixed_reply (q : String) :
    knowledge_search [] q = "No knowledge available yet." ∧
    knowledge_search [] q = no_knowledge_msg ∧
    no_knowledge_msg ≠ "" :=
  ⟨rfl, rfl, by decide⟩

end NeuroSync
